import Mathlib

/-!
Shallow embedding of the AS7331 UV sensor logger firmware
(src/uv_readings.ino) for checking its natural-language specification.

Modelling conventions:
* The external collaborators (sensor driver, WiFi stack, HTTP client,
  millisecond clock) are modelled as explicit oracle inputs: the result
  of uvSensor.readAll, the four float getters, the stream of successive
  WiFi.status() answers within one cycle, the return value of http.POST,
  and the value of millis().  Observable actions (Serial log lines,
  WiFi.begin, delay, HTTP client calls) are recorded as an event trace.
* Sensor floats are modelled as rationals; the Arduino String(value, 2)
  fixed-point rendering is modelled by fmtFixed, which rounds the scaled
  magnitude half-up and prints a sign, an integer part and exactly
  `prec` fractional digits, matching dtostrf for finite values.
* millis() is modelled as a monotone natural-number clock; the uint32
  wrap-around after 49.7 days is outside the modelled executions, where
  lastPostTime never exceeds the current time.
-/

namespace UvReadings

/-- Observable actions of the firmware: serial log lines, the WiFi
association call, busy-wait delays, and the HTTP client calls made by
sendDataToServer. -/
inductive Event where
  | logLine (s : String)
  | wifiBegin
  | delayMs (n : ℕ)
  | httpBegin (url : String)
  | httpAddHeader (k v : String)
  | httpPost (body : String)
  | httpEnd
deriving DecidableEq

/-- The compile-time server URL constant of the sketch. -/
def serverUrl : String := "https://app.monitman.com/dashboard/receive.php?sensor=uv"

/-- Timing configuration: POST_INTERVAL = 60000 ms (line 29). -/
def POST_INTERVAL : ℕ := 60000

/-- One decimal digit character; the argument is reduced mod 10, which is
the identity at every call site. -/
def digitChar (d : ℕ) : Char := Char.ofNat (48 + d % 10)

/-- Accumulator-style decimal rendering of a positive natural number,
most significant digit first. -/
def natToDecAux (n : ℕ) (acc : List Char) : List Char :=
  if n = 0 then acc
  else natToDecAux (n / 10) (digitChar (n % 10) :: acc)
termination_by n
decreasing_by exact Nat.div_lt_self (Nat.pos_of_ne_zero (by assumption)) (by omega)

/-- Decimal rendering of a natural number, as produced by String(millis())
and by the integer part of dtostrf. -/
def natToDec (n : ℕ) : String :=
  if n = 0 then "0" else String.mk (natToDecAux n [])

/-- Exactly `prec` decimal digits of `m`, zero padded, most significant
first: the fractional part of a fixed-point rendering. -/
def padDigits : ℕ → ℕ → List Char
  | 0, _ => []
  | p + 1, m => padDigits p (m / 10) ++ [digitChar (m % 10)]

/-- Embedding of the Arduino String(value, prec) fixed-point float
rendering used by createJsonPayload and the serial prints: sign, integer
part, a dot, and exactly `prec` fractional digits of the magnitude
rounded half-up at the last kept digit. -/
def fmtFixed (prec : ℕ) (q : ℚ) : String :=
  (if q < 0 then "-" else "") ++
  natToDec ((|q| * ((10 ^ prec : ℕ) : ℚ) + 1 / 2).floor.toNat / 10 ^ prec) ++ "." ++
  String.mk (padDigits prec ((|q| * ((10 ^ prec : ℕ) : ℚ) + 1 / 2).floor.toNat % 10 ^ prec))

/-- createJsonPayload (lines 172-185): builds the JSON record by string
concatenation.  The sketch reads millis() inside the function; the
embedding passes that clock value explicitly as `ms`. -/
def createJsonPayload (uva uvb uvc temp : ℚ) (ms : ℕ) : String :=
  "\x7b" ++
  "\"timestamp\":" ++ natToDec ms ++ "," ++
  "\"uva\":" ++ fmtFixed 2 uva ++ "," ++
  "\"uvb\":" ++ fmtFixed 2 uvb ++ "," ++
  "\"uvc\":" ++ fmtFixed 2 uvc ++ "," ++
  "\"temperature\":" ++ fmtFixed 2 temp ++ "," ++
  "\"device\":\"ESP32-C6\"," ++
  "\"sensor\":\"AS7331\"" ++
  "\x7d"

/-- The retry-loop body of connectWiFi (lines 104-109):
while (WiFi.status() != WL_CONNECTED and attempts < 30) delay(500).
`status k` is the answer of the k-th WiFi.status() call of the enclosing
cycle, `i` the index of the next unconsumed answer, and `fuel` the number
of attempts still allowed (30 - attempts).  Returns the delay events of
the loop and the index of the next unconsumed status answer. -/
def connectLoop (status : ℕ → Bool) : ℕ → ℕ → List Event × ℕ
  | i, 0 => ([], i + 1)
  | i, fuel + 1 =>
    if status i then ([], i + 1)
    else
      let r := connectLoop status (i + 1) fuel
      (Event.delayMs 500 :: r.1, r.2)

/-- connectWiFi (lines 100-118): WiFi.begin, up to 30 half-second retry
waits, then a final WiFi.status() check deciding the success or failure
log line.  Returns the events, the index of the next unconsumed status
answer, and the result of the final connection check. -/
def connectWiFi (status : ℕ → Bool) (i : ℕ) : List Event × ℕ × Bool :=
  let r := connectLoop status i 30
  let ok := status r.2
  (Event.wifiBegin :: r.1 ++
     [Event.logLine (if ok then "WiFi connected!" else "WiFi connection failed!")],
   r.2 + 1, ok)

/-- sendDataToServer (lines 187-217): one http.begin / addHeader / POST,
then the response code decides the branch: code > 0 logs the code and the
server response body, otherwise the transport error is logged; finally
http.end.  `resp` is the oracle return of http.POST and `serverResponse`
the oracle body returned by http.getString. -/
def sendDataToServer (body : String) (resp : ℤ) (serverResponse : String) : List Event :=
  [Event.httpBegin serverUrl,
   Event.httpAddHeader "Content-Type" "application/json",
   Event.httpPost body] ++
  (if 0 < resp then
    [Event.logLine ("HTTP Response code: " ++ toString resp),
     Event.logLine ("Server response: " ++ serverResponse)]
   else
    [Event.logLine ("HTTP POST failed. Error: " ++ toString resp)]) ++
  [Event.httpEnd]

/-- The oracle inputs consumed by one readAndPostData cycle: the
sfTkError_t result of uvSensor.readAll (ksfTkErrOk = 0), the four float
getters, the millis() sample taken inside createJsonPayload, the stream
of successive WiFi.status() answers of this cycle, and the HTTP
POST return code and response body of the HTTP collaborator. -/
structure CycleInput where
  readResult : ℤ
  uva : ℚ
  uvb : ℚ
  uvc : ℚ
  temp : ℚ
  millisAtPayload : ℕ
  wifiStatus : ℕ → Bool
  postResponse : ℤ
  serverResponse : String

/-- Result of one cycle: its event trace and the JSON record string it
constructed, if it reached the encoding stage. -/
structure CycleResult where
  events : List Event
  payload : Option String
deriving DecidableEq

/-- The four-line warning block printed when all three UV channels are
zero (lines 150-153). -/
def zeroWarningEvents : List Event :=
  [Event.logLine "WARNING: All UV values are zero!",
   Event.logLine "Try: 1) Shining UV light directly on sensor",
   Event.logLine "     2) Checking if UV light emits in 220-400nm range",
   Event.logLine "     3) Removing any protective covering on sensor"]

/-- The serial prints of a successful read (lines 134, 143-146). -/
def readLogEvents (inp : CycleInput) : List Event :=
  [Event.logLine "Read successful!",
   Event.logLine ("UVA: " ++ fmtFixed 4 inp.uva ++ " µW/cm²"),
   Event.logLine ("UVB: " ++ fmtFixed 4 inp.uvb ++ " µW/cm²"),
   Event.logLine ("UVC: " ++ fmtFixed 4 inp.uvc ++ " µW/cm²"),
   Event.logLine ("Temperature: " ++ fmtFixed 2 inp.temp ++ " °C")]

/-- The transmit stage of a cycle (lines 162-167): if the first
WiFi.status() answer of the cycle is connected, sendDataToServer runs;
otherwise connectWiFi is called (consuming status answers from index 1
on) and the cycle ends without any HTTP activity. -/
def transmitEvents (inp : CycleInput) (json : String) : List Event :=
  if inp.wifiStatus 0 then
    sendDataToServer json inp.postResponse inp.serverResponse
  else
    Event.logLine "WiFi not connected. Attempting to reconnect..." ::
      (connectWiFi inp.wifiStatus 1).1

/-- The two serial prints at the top of readAndPostData (lines 121-124),
emitted before the sensor is read. -/
def readPreludeEvents : List Event :=
  [Event.logLine "--- Reading UV Sensor Data ---",
   Event.logLine "Reading from sensor..."]

/-- The encode-and-transmit tail of a successful cycle (lines 156-169):
the payload print, the transmit stage, and the closing blank line.  This
part of the pipeline is the same whether or not the all-zero warning
fired. -/
def encodeAndSendEvents (inp : CycleInput) : List Event :=
  let json := createJsonPayload inp.uva inp.uvb inp.uvc inp.temp inp.millisAtPayload
  [Event.logLine "JSON Payload:", Event.logLine json] ++
  transmitEvents inp json ++
  [Event.logLine ""]

/-- Events of a cycle after a successful readAll: read prints, the
all-zero warning block when it applies, then the common
encode-and-transmit tail. -/
def afterReadEvents (inp : CycleInput) : List Event :=
  readLogEvents inp ++
  (if inp.uva = 0 ∧ inp.uvb = 0 ∧ inp.uvc = 0 then zeroWarningEvents else []) ++
  encodeAndSendEvents inp

/-- readAndPostData (lines 120-170): a failing readAll logs the error
code and returns before any record is built; a successful one runs
afterReadEvents and constructs the JSON payload. -/
def readAndPostData (inp : CycleInput) : CycleResult :=
  if inp.readResult = 0 then
    { events := readPreludeEvents ++ afterReadEvents inp,
      payload := some (createJsonPayload inp.uva inp.uvb inp.uvc inp.temp inp.millisAtPayload) }
  else
    { events := readPreludeEvents ++
        [Event.logLine ("ERROR: Failed to read sensor data. Error code: " ++ toString inp.readResult),
         Event.logLine ""],
      payload := none }

/-- How setup (lines 35-62) terminates: the two while(1) infinite-wait
halts, or completion into loop(). -/
inductive SetupOutcome where
  | haltedSensorAbsent
  | haltedConfigFailed
  | completed
deriving DecidableEq

/-- Oracle inputs of setup: the result of uvSensor.begin, the result of
prepareMeasurement in configureSensor, and the WiFi.status() stream
consumed by the startup connectWiFi call. -/
structure SetupInput where
  sensorBeginOk : Bool
  prepareOk : Bool
  wifiStatus : ℕ → Bool

/-- setup (lines 35-62): I2C init, sensor detection (infinite wait on
failure), configureSensor (infinite wait on prepareMeasurement failure),
then connectWiFi.  The numeric gain and conversion-time prints of
configureSensor are elided from the log model.  Returns the outcome and
the events emitted before halting or completing. -/
def setup (inp : SetupInput) : SetupOutcome × List Event :=
  let pre := [Event.logLine "=== AS7331 UV Sensor Logger ===",
              Event.logLine "I2C initialized"]
  if inp.sensorBeginOk = false then
    (SetupOutcome.haltedSensorAbsent,
     pre ++ [Event.logLine "ERROR: AS7331 sensor not detected!",
             Event.logLine "Check wiring and I2C address (default: 0x74)"])
  else if inp.prepareOk = false then
    (SetupOutcome.haltedConfigFailed,
     pre ++ [Event.logLine "AS7331 sensor initialized",
             Event.logLine "Configuring AS7331 sensor...",
             Event.logLine "ERROR: Failed to start continuous measurement mode"])
  else
    (SetupOutcome.completed,
     pre ++ [Event.logLine "AS7331 sensor initialized",
             Event.logLine "Configuring AS7331 sensor...",
             Event.logLine "Sensor configured and measurement started in CONT mode",
             Event.delayMs 1000] ++
     (connectWiFi inp.wifiStatus 0).1 ++
     [Event.logLine "Setup complete. Starting measurements..."])

/-- The scheduler state of loop(): the global lastPostTime (line 33) and
the current millis() reading. -/
structure LoopState where
  lastPostTime : ℕ
  now : ℕ
deriving DecidableEq

/-- One iteration of loop() (lines 64-73): fires a cycle when
millis() - lastPostTime >= POST_INTERVAL, in which case lastPostTime is
set to the millis() reading taken after the cycle returns (`dur` is the
wall-clock time the cycle consumed); every iteration ends with
delay(100). -/
def loopIter (inp : CycleInput) (dur : ℕ) (s : LoopState) : LoopState × Option CycleResult :=
  if POST_INTERVAL ≤ s.now - s.lastPostTime then
    (⟨s.now + dur, s.now + dur + 100⟩, some (readAndPostData inp))
  else
    (⟨s.lastPostTime, s.now + 100⟩, none)

/-- A run of loop() over a list of iterations, each carrying the cycle
oracle it would consume and the duration that cycle would take; returns
the start times (millis() at the firing check) of the cycles that
fired. -/
def loopRun (s : LoopState) : List (CycleInput × ℕ) → List ℕ
  | [] => []
  | (inp, dur) :: rest =>
    let r := loopIter inp dur s
    match r.2 with
    | some _ => s.now :: loopRun r.1 rest
    | none => loopRun r.1 rest

/-- The event trace of a run of loop(). -/
def loopEvents (s : LoopState) : List (CycleInput × ℕ) → List Event
  | [] => []
  | (inp, dur) :: rest =>
    let r := loopIter inp dur s
    (match r.2 with
     | some res => res.events
     | none => []) ++ Event.delayMs 100 :: loopEvents r.1 rest

/-- The whole program: setup, then — only if setup completed — the polling
loop starting with lastPostTime = 0 at time `t0`.  A halted setup never
reaches the loop. -/
def programEvents (sinp : SetupInput) (t0 : ℕ) (cycles : List (CycleInput × ℕ)) : List Event :=
  match setup sinp with
  | (SetupOutcome.completed, evs) => evs ++ loopEvents ⟨0, t0⟩ cycles
  | (_, evs) => evs

/-- Network-touching events: the WiFi association call and every HTTP
client call. -/
def isNetworkEvent : Event → Bool
  | Event.wifiBegin => true
  | Event.httpBegin _ => true
  | Event.httpAddHeader _ _ => true
  | Event.httpPost _ => true
  | Event.httpEnd => true
  | _ => false

/-- HTTP POST events, for counting delivery attempts. -/
def isPostEvent : Event → Bool
  | Event.httpPost _ => true
  | _ => false

/-- A rendered numeric field carries exactly two digits after the decimal
point: it splits as a dot-free prefix, a dot, and two digit characters. -/
def twoDecimals (s : String) : Prop :=
  ∃ pre d₁ d₂, s = pre ++ "." ++ String.mk [d₁, d₂] ∧
    d₁.isDigit = true ∧ d₂.isDigit = true ∧ '.' ∉ pre.data

theorem digitChar_isDigit (d : ℕ) : (digitChar d).isDigit = true := by
  unfold digitChar
  have h : d % 10 < 10 := Nat.mod_lt _ (by omega)
  set r := d % 10 with hr
  interval_cases r <;> decide

theorem natToDecAux_digits (n : ℕ) : ∀ acc, (∀ c ∈ acc, c.isDigit = true) →
    ∀ c ∈ natToDecAux n acc, c.isDigit = true := by
  induction n using Nat.strong_induction_on with
  | _ n ih =>
    intro acc hacc c hc
    rw [natToDecAux] at hc
    by_cases hn : n = 0
    · rw [if_pos hn] at hc
      exact hacc c hc
    · rw [if_neg hn] at hc
      refine ih (n / 10) (Nat.div_lt_self (Nat.pos_of_ne_zero hn) (by omega)) _ ?_ c hc
      intro x hx
      rcases List.mem_cons.mp hx with h | h
      · rw [h]
        exact digitChar_isDigit _
      · exact hacc x h

theorem natToDec_digits (n : ℕ) : ∀ c ∈ (natToDec n).data, c.isDigit = true := by
  unfold natToDec
  split
  · decide
  · exact natToDecAux_digits n [] (by intro c hc; simp at hc)

theorem padDigits_two (m : ℕ) :
    padDigits 2 m = [digitChar (m / 10 % 10), digitChar (m % 10)] := by
  show padDigits (1 + 1) m = _
  rw [padDigits, padDigits]
  show padDigits 0 _ ++ _ ++ _ = _
  rw [padDigits]
  rfl

theorem fmtFixed_twoDecimals (q : ℚ) : twoDecimals (fmtFixed 2 q) := by
  unfold fmtFixed twoDecimals
  refine ⟨(if q < 0 then "-" else "") ++
    natToDec ((|q| * ((10 ^ 2 : ℕ) : ℚ) + 1 / 2).floor.toNat / 10 ^ 2),
    digitChar ((|q| * ((10 ^ 2 : ℕ) : ℚ) + 1 / 2).floor.toNat % 10 ^ 2 / 10 % 10),
    digitChar ((|q| * ((10 ^ 2 : ℕ) : ℚ) + 1 / 2).floor.toNat % 10 ^ 2 % 10), ?_, ?_, ?_, ?_⟩
  · rw [padDigits_two]
  · exact digitChar_isDigit _
  · exact digitChar_isDigit _
  · intro hdot
    rw [String.data_append] at hdot
    rcases List.mem_append.mp hdot with h | h
    · split at h <;> simp_all
    · have := natToDec_digits _ _ h
      simp at this

theorem connectLoop_events_delay (status : ℕ → Bool) :
    ∀ (fuel i : ℕ), ∀ e ∈ (connectLoop status i fuel).1, e = Event.delayMs 500 := by
  intro fuel
  induction fuel with
  | zero =>
    intro i e he
    simp [connectLoop] at he
  | succ fuel ih =>
    intro i e he
    rw [connectLoop] at he
    by_cases h : status i
    · rw [if_pos h] at he
      simp at he
    · rw [if_neg h] at he
      rcases List.mem_cons.mp he with h' | h'
      · exact h'
      · exact ih (i + 1) e h'

theorem connectWiFi_no_post (status : ℕ → Bool) (i : ℕ) (b : String) :
    Event.httpPost b ∉ (connectWiFi status i).1 := by
  intro hmem
  unfold connectWiFi at hmem
  rcases List.mem_cons.mp hmem with h | h
  · simp at h
  · rcases List.mem_append.mp h with h | h
    · have := connectLoop_events_delay status 30 i _ h
      simp at this
    · simp at h

theorem connectLoop_allFalse (status : ℕ → Bool) (hst : ∀ k, status k = false) :
    ∀ (fuel i : ℕ),
      connectLoop status i fuel = (List.replicate fuel (Event.delayMs 500), i + fuel + 1) := by
  intro fuel
  induction fuel with
  | zero =>
    intro i
    simp [connectLoop]
  | succ fuel ih =>
    intro i
    rw [connectLoop, if_neg (by simp [hst i]), ih (i + 1)]
    simp [List.replicate_succ]
    omega

theorem connectWiFi_allFalse (status : ℕ → Bool) (hst : ∀ k, status k = false) (i : ℕ) :
    connectWiFi status i =
      (Event.wifiBegin :: List.replicate 30 (Event.delayMs 500) ++
        [Event.logLine "WiFi connection failed!"], i + 32, false) := by
  unfold connectWiFi
  rw [connectLoop_allFalse status hst 30 i]
  simp [hst]

/-- C1: the sample encoder is a pure, deterministic function of the
sample and the clock value: in any cycle whose sensor read succeeded the
constructed record is exactly createJsonPayload of the sample and the
millis() value, and any two cycles presenting the same sample and clock
value — regardless of every other oracle (WiFi status answers, POST
return code, server response) — construct byte-identical records. -/
theorem encoder_pure_deterministic (inp₁ inp₂ : CycleInput)
    (h₁ : inp₁.readResult = 0) (h₂ : inp₂.readResult = 0)
    (ha : inp₁.uva = inp₂.uva) (hb : inp₁.uvb = inp₂.uvb) (hc : inp₁.uvc = inp₂.uvc)
    (ht : inp₁.temp = inp₂.temp) (hm : inp₁.millisAtPayload = inp₂.millisAtPayload) :
    (readAndPostData inp₁).payload =
      some (createJsonPayload inp₁.uva inp₁.uvb inp₁.uvc inp₁.temp inp₁.millisAtPayload) ∧
    (readAndPostData inp₁).payload = (readAndPostData inp₂).payload := by
  constructor
  · simp [readAndPostData, h₁]
  · simp [readAndPostData, h₁, h₂, ha, hb, hc, ht, hm]

theorem encoder_pure_deterministic_witness :
    (readAndPostData ⟨0, 3/2, 0, 0, 203/8, 123456, fun _ => true, 200, "ok"⟩).payload =
      some (createJsonPayload (3/2) 0 0 (203/8) 123456) ∧
    (readAndPostData ⟨0, 3/2, 0, 0, 203/8, 123456, fun _ => true, 200, "ok"⟩).payload =
      (readAndPostData ⟨0, 3/2, 0, 0, 203/8, 123456, fun _ => false, -1, ""⟩).payload :=
  encoder_pure_deterministic _ _ rfl rfl rfl rfl rfl rfl rfl

/-- C2: in sendDataToServer, any POST return code strictly greater than
zero — including HTTP error statuses like 404 or 500 — takes the
delivered branch (response code and body are logged), a code of zero or
below takes the transport-failure branch (error logged), and in either
case exactly one POST is issued: no retry within the cycle. -/
theorem response_code_branching (body : String) (resp : ℤ) (sr : String) :
    (0 < resp → sendDataToServer body resp sr =
      [Event.httpBegin serverUrl, Event.httpAddHeader "Content-Type" "application/json",
       Event.httpPost body,
       Event.logLine ("HTTP Response code: " ++ toString resp),
       Event.logLine ("Server response: " ++ sr), Event.httpEnd]) ∧
    (resp ≤ 0 → sendDataToServer body resp sr =
      [Event.httpBegin serverUrl, Event.httpAddHeader "Content-Type" "application/json",
       Event.httpPost body,
       Event.logLine ("HTTP POST failed. Error: " ++ toString resp), Event.httpEnd]) ∧
    List.countP isPostEvent (sendDataToServer body resp sr) = 1 := by
  refine ⟨fun h => ?_, fun h => ?_, ?_⟩
  · simp [sendDataToServer, if_pos h]
  · simp [sendDataToServer, if_neg (by omega : ¬(0 < resp))]
  · by_cases h : 0 < resp
    · simp [sendDataToServer, if_pos h, List.countP_append, isPostEvent, List.countP_cons]
    · simp [sendDataToServer, if_neg h, List.countP_append, isPostEvent, List.countP_cons]

theorem response_code_branching_witness :
    sendDataToServer "x" 404 "err" =
      [Event.httpBegin serverUrl, Event.httpAddHeader "Content-Type" "application/json",
       Event.httpPost "x",
       Event.logLine ("HTTP Response code: " ++ toString (404 : ℤ)),
       Event.logLine ("Server response: " ++ "err"), Event.httpEnd] ∧
    List.countP isPostEvent (sendDataToServer "x" 404 "err") = 1 :=
  ⟨(response_code_branching "x" 404 "err").1 (by decide),
   (response_code_branching "x" 404 "err").2.2⟩

/-- C8: every encoded record is the JSON object whose keys appear in the
fixed order timestamp, uva, uvb, uvc, temperature, device, sensor; the
timestamp field is all decimal digits, and each of the four measurement
fields carries exactly two digits after its decimal point, for inputs
from small negatives up to beyond 10000. -/
theorem wire_format_fixed_order (ms : ℕ) (uva uvb uvc temp : ℚ)
    (h₁ : -1 ≤ uva) (h₂ : uva ≤ 100000) (h₃ : -1 ≤ uvb) (h₄ : uvb ≤ 100000)
    (h₅ : -1 ≤ uvc) (h₆ : uvc ≤ 100000) (h₇ : -1 ≤ temp) (h₈ : temp ≤ 100000) :
    ∃ t a b c d : String,
      createJsonPayload uva uvb uvc temp ms =
        "\x7b" ++ "\"timestamp\":" ++ t ++ "," ++
        "\"uva\":" ++ a ++ "," ++
        "\"uvb\":" ++ b ++ "," ++
        "\"uvc\":" ++ c ++ "," ++
        "\"temperature\":" ++ d ++ "," ++
        "\"device\":\"ESP32-C6\"," ++
        "\"sensor\":\"AS7331\"" ++
        "\x7d" ∧
      (∀ ch ∈ t.data, ch.isDigit = true) ∧
      twoDecimals a ∧ twoDecimals b ∧ twoDecimals c ∧ twoDecimals d :=
  ⟨natToDec ms, fmtFixed 2 uva, fmtFixed 2 uvb, fmtFixed 2 uvc, fmtFixed 2 temp,
   rfl, natToDec_digits ms,
   fmtFixed_twoDecimals uva, fmtFixed_twoDecimals uvb,
   fmtFixed_twoDecimals uvc, fmtFixed_twoDecimals temp⟩

theorem wire_format_fixed_order_witness :
    ∃ t a b c d : String,
      createJsonPayload 0 10000 (-1) 25 123456 =
        "\x7b" ++ "\"timestamp\":" ++ t ++ "," ++
        "\"uva\":" ++ a ++ "," ++
        "\"uvb\":" ++ b ++ "," ++
        "\"uvc\":" ++ c ++ "," ++
        "\"temperature\":" ++ d ++ "," ++
        "\"device\":\"ESP32-C6\"," ++
        "\"sensor\":\"AS7331\"" ++
        "\x7d" ∧
      (∀ ch ∈ t.data, ch.isDigit = true) ∧
      twoDecimals a ∧ twoDecimals b ∧ twoDecimals c ∧ twoDecimals d :=
  wire_format_fixed_order 123456 0 10000 (-1) 25
    (by decide) (by decide) (by decide) (by decide)
    (by decide) (by decide) (by decide) (by decide)

/-- C9: a cycle whose readAll returns a nonzero error code aborts before
the encoding stage: no record is constructed, the event trace is exactly
the prelude prints plus the error log, and in particular no network
event — no WiFi.begin and no HTTP call — occurs in that cycle. -/
theorem read_error_aborts_cycle (inp : CycleInput) (h : inp.readResult ≠ 0) :
    (readAndPostData inp).payload = none ∧
    (readAndPostData inp).events = readPreludeEvents ++
      [Event.logLine ("ERROR: Failed to read sensor data. Error code: " ++ toString inp.readResult),
       Event.logLine ""] ∧
    (∀ e ∈ (readAndPostData inp).events, isNetworkEvent e = false) ∧
    (∀ b, Event.httpPost b ∉ (readAndPostData inp).events) ∧
    Event.wifiBegin ∉ (readAndPostData inp).events := by
  refine ⟨?_, ?_, ?_, ?_, ?_⟩
  · simp [readAndPostData, if_neg h]
  · simp [readAndPostData, if_neg h]
  · intro e he
    simp [readAndPostData, if_neg h, readPreludeEvents] at he
    rcases he with rfl | rfl | rfl | rfl <;> rfl
  · intro b hb
    simp [readAndPostData, if_neg h, readPreludeEvents] at hb
  · intro hb
    simp [readAndPostData, if_neg h, readPreludeEvents] at hb

theorem read_error_aborts_cycle_witness :
    (readAndPostData ⟨5, 1, 2, 3, 20, 777, fun _ => true, 200, "ok"⟩).payload = none ∧
    (readAndPostData ⟨5, 1, 2, 3, 20, 777, fun _ => true, 200, "ok"⟩).events =
      readPreludeEvents ++
      [Event.logLine ("ERROR: Failed to read sensor data. Error code: " ++ toString (5 : ℤ)),
       Event.logLine ""] :=
  ⟨(read_error_aborts_cycle ⟨5, 1, 2, 3, 20, 777, fun _ => true, 200, "ok"⟩ (by decide)).1,
   (read_error_aborts_cycle ⟨5, 1, 2, 3, 20, 777, fun _ => true, 200, "ok"⟩ (by decide)).2.1⟩

/-- C3: when the network is down at the transmit stage and stays down,
reconnection is attempted exactly 30 times with a fixed 500 ms delay
between attempts, the reconnection fails, no HTTP POST is issued in the
cycle, and the cycle runs to completion: its whole event trace is the
ordinary pipeline with the reconnection attempt in place of the send. -/
theorem disconnected_transmit_skip (inp : CycleInput) (hr : inp.readResult = 0)
    (hw : ∀ k, inp.wifiStatus k = false) :
    (readAndPostData inp).events =
      readPreludeEvents ++ readLogEvents inp ++
      (if inp.uva = 0 ∧ inp.uvb = 0 ∧ inp.uvc = 0 then zeroWarningEvents else []) ++
      ([Event.logLine "JSON Payload:",
        Event.logLine (createJsonPayload inp.uva inp.uvb inp.uvc inp.temp inp.millisAtPayload)] ++
       (Event.logLine "WiFi not connected. Attempting to reconnect..." ::
         Event.wifiBegin :: (List.replicate 30 (Event.delayMs 500) ++
           [Event.logLine "WiFi connection failed!"])) ++
       [Event.logLine ""]) ∧
    (∀ b, Event.httpPost b ∉ (readAndPostData inp).events) ∧
    (connectWiFi inp.wifiStatus 1).2.2 = false := by
  have hconn := connectWiFi_allFalse inp.wifiStatus hw 1
  have hev : (readAndPostData inp).events =
      readPreludeEvents ++ readLogEvents inp ++
      (if inp.uva = 0 ∧ inp.uvb = 0 ∧ inp.uvc = 0 then zeroWarningEvents else []) ++
      ([Event.logLine "JSON Payload:",
        Event.logLine (createJsonPayload inp.uva inp.uvb inp.uvc inp.temp inp.millisAtPayload)] ++
       (Event.logLine "WiFi not connected. Attempting to reconnect..." ::
         Event.wifiBegin :: (List.replicate 30 (Event.delayMs 500) ++
           [Event.logLine "WiFi connection failed!"])) ++
       [Event.logLine ""]) := by
    simp [readAndPostData, hr, afterReadEvents, encodeAndSendEvents, transmitEvents, hw, hconn]
  refine ⟨hev, ?_, ?_⟩
  · intro b hb
    rw [hev] at hb
    by_cases hz : inp.uva = 0 ∧ inp.uvb = 0 ∧ inp.uvc = 0
    · rw [if_pos hz] at hb
      simp [readPreludeEvents, readLogEvents, zeroWarningEvents, List.mem_replicate] at hb
    · rw [if_neg hz] at hb
      simp [readPreludeEvents, readLogEvents, List.mem_replicate] at hb
  · simp [hconn]

theorem disconnected_transmit_skip_witness :
    (∀ b, Event.httpPost b ∉
      (readAndPostData ⟨0, 1, 2, 3, 25, 999, fun _ => false, 200, "ok"⟩).events) ∧
    (connectWiFi (fun _ => false) 1).2.2 = false :=
  ⟨(disconnected_transmit_skip ⟨0, 1, 2, 3, 25, 999, fun _ => false, 200, "ok"⟩
      rfl (fun _ => rfl)).2.1,
   (disconnected_transmit_skip ⟨0, 1, 2, 3, 25, 999, fun _ => false, 200, "ok"⟩
      rfl (fun _ => rfl)).2.2⟩

/-- C4: a successfully read sample whose three UV channels are all zero
logs the warning block but is not suppressed: the record is still
constructed, the cycle trace is the ordinary pipeline with the warning
block inserted, and when the network is connected the record is posted;
a non-zero sample runs the identical pipeline without the warning. -/
theorem zero_reading_not_suppressed (inp : CycleInput) (hr : inp.readResult = 0)
    (hz : inp.uva = 0 ∧ inp.uvb = 0 ∧ inp.uvc = 0) :
    (readAndPostData inp).events =
      readPreludeEvents ++ readLogEvents inp ++ zeroWarningEvents ++ encodeAndSendEvents inp ∧
    Event.logLine "WARNING: All UV values are zero!" ∈ (readAndPostData inp).events ∧
    (readAndPostData inp).payload =
      some (createJsonPayload inp.uva inp.uvb inp.uvc inp.temp inp.millisAtPayload) ∧
    (inp.wifiStatus 0 = true →
      Event.httpPost (createJsonPayload inp.uva inp.uvb inp.uvc inp.temp inp.millisAtPayload) ∈
        (readAndPostData inp).events) ∧
    (∀ inp' : CycleInput, inp'.readResult = 0 →
      ¬(inp'.uva = 0 ∧ inp'.uvb = 0 ∧ inp'.uvc = 0) →
      (readAndPostData inp').events =
        readPreludeEvents ++ readLogEvents inp' ++ encodeAndSendEvents inp') := by
  refine ⟨?_, ?_, ?_, ?_, ?_⟩
  · simp [readAndPostData, hr, afterReadEvents, if_pos hz]
  · simp [readAndPostData, hr, afterReadEvents, if_pos hz, zeroWarningEvents]
  · simp [readAndPostData, hr]
  · intro hwc
    simp [readAndPostData, hr, afterReadEvents, if_pos hz, encodeAndSendEvents,
      transmitEvents, hwc, sendDataToServer]
  · intro inp' h1 h2
    simp [readAndPostData, h1, afterReadEvents, if_neg h2]

theorem zero_reading_not_suppressed_witness :
    Event.logLine "WARNING: All UV values are zero!" ∈
      (readAndPostData ⟨0, 0, 0, 0, 25, 777, fun _ => true, 200, "ok"⟩).events ∧
    (readAndPostData ⟨0, 0, 0, 0, 25, 777, fun _ => true, 200, "ok"⟩).payload =
      some (createJsonPayload 0 0 0 25 777) ∧
    Event.httpPost (createJsonPayload 0 0 0 25 777) ∈
      (readAndPostData ⟨0, 0, 0, 0, 25, 777, fun _ => true, 200, "ok"⟩).events :=
  ⟨(zero_reading_not_suppressed ⟨0, 0, 0, 0, 25, 777, fun _ => true, 200, "ok"⟩
      rfl ⟨rfl, rfl, rfl⟩).2.1,
   (zero_reading_not_suppressed ⟨0, 0, 0, 0, 25, 777, fun _ => true, 200, "ok"⟩
      rfl ⟨rfl, rfl, rfl⟩).2.2.1,
   (zero_reading_not_suppressed ⟨0, 0, 0, 0, 25, 777, fun _ => true, 200, "ok"⟩
      rfl ⟨rfl, rfl, rfl⟩).2.2.2.1 rfl⟩

/-- C10: a cycle that finds the network disconnected at the transmit
stage issues no HTTP POST at all — even when the in-cycle reconnection
succeeds — so the already-encoded record of that cycle is discarded and
the restored connection can only serve later cycles. -/
theorem reconnect_does_not_resend (inp : CycleInput) (hr : inp.readResult = 0)
    (hw0 : inp.wifiStatus 0 = false) :
    (readAndPostData inp).payload =
      some (createJsonPayload inp.uva inp.uvb inp.uvc inp.temp inp.millisAtPayload) ∧
    (∀ b, Event.httpPost b ∉ (readAndPostData inp).events) := by
  constructor
  · simp [readAndPostData, hr]
  · intro b hb
    by_cases hz : inp.uva = 0 ∧ inp.uvb = 0 ∧ inp.uvc = 0
    · simp [readAndPostData, hr, afterReadEvents, encodeAndSendEvents, transmitEvents,
        hw0, if_pos hz, readPreludeEvents, readLogEvents, zeroWarningEvents] at hb
      exact connectWiFi_no_post inp.wifiStatus 1 b hb
    · simp [readAndPostData, hr, afterReadEvents, encodeAndSendEvents, transmitEvents,
        hw0, if_neg hz, readPreludeEvents, readLogEvents] at hb
      exact connectWiFi_no_post inp.wifiStatus 1 b hb

theorem reconnect_does_not_resend_witness :
    (readAndPostData ⟨0, 1, 2, 3, 25, 999, fun k => decide (1 ≤ k), 200, "ok"⟩).payload =
      some (createJsonPayload 1 2 3 25 999) ∧
    (∀ b, Event.httpPost b ∉
      (readAndPostData ⟨0, 1, 2, 3, 25, 999, fun k => decide (1 ≤ k), 200, "ok"⟩).events) :=
  reconnect_does_not_resend ⟨0, 1, 2, 3, 25, 999, fun k => decide (1 ≤ k), 200, "ok"⟩ rfl rfl

/-- C5: the schedule state is advanced after every fired cycle no matter
how the cycle went: for any cycle oracle whatsoever — read failure,
transmit failure, skipped transmit — a fired iteration sets lastPostTime
to the clock reading taken after the cycle, a non-fired iteration leaves
it unchanged, and the resulting scheduler state does not depend on the
cycle oracle at all. -/
theorem schedule_advances_regardless (inp inp' : CycleInput) (dur : ℕ) (s : LoopState) :
    (POST_INTERVAL ≤ s.now - s.lastPostTime →
      (loopIter inp dur s).1.lastPostTime = s.now + dur) ∧
    (¬ POST_INTERVAL ≤ s.now - s.lastPostTime →
      (loopIter inp dur s).1.lastPostTime = s.lastPostTime) ∧
    (loopIter inp dur s).1 = (loopIter inp' dur s).1 := by
  refine ⟨fun h => ?_, fun h => ?_, ?_⟩
  · simp [loopIter, if_pos h]
  · simp [loopIter, if_neg h]
  · by_cases h : POST_INTERVAL ≤ s.now - s.lastPostTime
    · simp [loopIter, if_pos h]
    · simp [loopIter, if_neg h]

theorem schedule_advances_regardless_witness :
    (loopIter ⟨5, 1, 2, 3, 25, 999, fun _ => false, -1, ""⟩ 7 ⟨0, 60000⟩).1.lastPostTime =
      60000 + 7 ∧
    (loopIter ⟨5, 1, 2, 3, 25, 999, fun _ => false, -1, ""⟩ 7 ⟨0, 60000⟩).1 =
      (loopIter ⟨0, 1, 2, 3, 25, 999, fun _ => true, -11, ""⟩ 7 ⟨0, 60000⟩).1 :=
  ⟨(schedule_advances_regardless ⟨5, 1, 2, 3, 25, 999, fun _ => false, -1, ""⟩
      ⟨0, 1, 2, 3, 25, 999, fun _ => true, -11, ""⟩ 7 ⟨0, 60000⟩).1 (by decide),
   (schedule_advances_regardless ⟨5, 1, 2, 3, 25, 999, fun _ => false, -1, ""⟩
      ⟨0, 1, 2, 3, 25, 999, fun _ => true, -11, ""⟩ 7 ⟨0, 60000⟩).2.2⟩

/-- C6: if uvSensor.begin reports the sensor absent, setup halts in the
infinite wait: whatever the remaining oracles and however many loop
iterations were available, the program never reaches the acquisition
loop — its whole event trace is the pre-halt setup log — and it performs
no network action of any kind. -/
theorem sensor_absent_halts (p : Bool) (w : ℕ → Bool) (t0 : ℕ)
    (cycles : List (CycleInput × ℕ)) :
    (setup ⟨false, p, w⟩).1 = SetupOutcome.haltedSensorAbsent ∧
    programEvents ⟨false, p, w⟩ t0 cycles = (setup ⟨false, p, w⟩).2 ∧
    (∀ e ∈ programEvents ⟨false, p, w⟩ t0 cycles, isNetworkEvent e = false) := by
  refine ⟨rfl, rfl, ?_⟩
  intro e he
  simp [programEvents, setup] at he
  rcases he with rfl | rfl | rfl | rfl <;> rfl

theorem loopRun_lastPost_lb (l : List (CycleInput × ℕ)) :
    ∀ (s : LoopState), ∀ t ∈ loopRun s l, s.lastPostTime + POST_INTERVAL ≤ t := by
  induction l with
  | nil =>
    intro s t ht
    simp [loopRun] at ht
  | cons hd tl ih =>
    intro s t ht
    obtain ⟨inp, dur⟩ := hd
    by_cases hc : POST_INTERVAL ≤ s.now - s.lastPostTime
    · simp only [loopRun, loopIter, if_pos hc] at ht
      have hPI : 0 < POST_INTERVAL := by decide
      rcases List.mem_cons.mp ht with rfl | ht
      · omega
      · have := ih _ t ht
        simp only at this
        omega
    · simp only [loopRun, loopIter, if_neg hc] at ht
      have := ih _ t ht
      simp only at this
      omega

theorem loopRun_separation (l : List (CycleInput × ℕ)) :
    ∀ (s : LoopState),
      List.Pairwise (fun a b => a + POST_INTERVAL ≤ b) (loopRun s l) := by
  induction l with
  | nil =>
    intro s
    simp [loopRun]
  | cons hd tl ih =>
    intro s
    obtain ⟨inp, dur⟩ := hd
    by_cases hc : POST_INTERVAL ≤ s.now - s.lastPostTime
    · simp only [loopRun, loopIter, if_pos hc]
      refine List.pairwise_cons.mpr ⟨?_, ih _⟩
      intro t ht
      have hPI : 0 < POST_INTERVAL := by decide
      have := loopRun_lastPost_lb tl _ t ht
      simp only at this
      omega
    · simp only [loopRun, loopIter, if_neg hc]
      exact ih _


theorem loopRun_eventually_fires (n : ℕ) :
    ∀ (l : List (CycleInput × ℕ)) (s : LoopState),
      s.lastPostTime ≤ s.now →
      POST_INTERVAL ≤ s.now - s.lastPostTime + 100 * n →
      n < l.length →
      loopRun s l ≠ [] := by
  induction n with
  | zero =>
    intro l s hmono helapsed hlen
    match l with
    | (inp, dur) :: tl =>
      have hc : POST_INTERVAL ≤ s.now - s.lastPostTime := by omega
      simp [loopRun, loopIter, if_pos hc]
  | succ n ih =>
    intro l s hmono helapsed hlen
    match l with
    | (inp, dur) :: tl =>
      by_cases hc : POST_INTERVAL ≤ s.now - s.lastPostTime
      · simp [loopRun, loopIter, if_pos hc]
      · simp only [loopRun, loopIter, if_neg hc]
        refine ih tl ⟨s.lastPostTime, s.now + 100⟩ (by simp; omega) (by simp; omega) ?_
        simpa using Nat.lt_of_succ_lt_succ hlen

/-- C7: scheduling invariant of loop() with interval POST_INTERVAL.  An
iteration fires a cycle exactly when now - lastPostTime has reached the
interval; the start times of any two fired cycles in a run are at least
a full POST_INTERVAL apart (hence certainly no closer than the interval
minus one loop-iteration latency); and from any state whose clock has
not fallen behind lastPostTime, a run given enough iterations — the
elapsed deficit being recovered at 100 ms per idle iteration — does fire
a cycle. -/
theorem scheduling_invariant :
    (∀ (inp : CycleInput) (dur : ℕ) (s : LoopState),
      ((loopIter inp dur s).2.isSome = true) ↔ POST_INTERVAL ≤ s.now - s.lastPostTime) ∧
    (∀ (s : LoopState) (l : List (CycleInput × ℕ)),
      List.Pairwise (fun a b => a + POST_INTERVAL ≤ b) (loopRun s l)) ∧
    (∀ (n : ℕ) (l : List (CycleInput × ℕ)) (s : LoopState),
      s.lastPostTime ≤ s.now →
      POST_INTERVAL ≤ s.now - s.lastPostTime + 100 * n →
      n < l.length →
      loopRun s l ≠ []) := by
  refine ⟨?_, ?_, ?_⟩
  · intro inp dur s
    by_cases hc : POST_INTERVAL ≤ s.now - s.lastPostTime
    · simp [loopIter, if_pos hc, hc]
    · simp [loopIter, if_neg hc, hc]
  · intro s l
    exact loopRun_separation l s
  · intro n l s h1 h2 h3
    exact loopRun_eventually_fires n l s h1 h2 h3

theorem scheduling_invariant_witness :
    loopRun ⟨0, 0⟩
      (List.replicate 601 (⟨0, 1, 2, 3, 25, 0, fun _ => false, 0, ""⟩, 0)) ≠ [] :=
  scheduling_invariant.2.2 600
    (List.replicate 601 (⟨0, 1, 2, 3, 25, 0, fun _ => false, 0, ""⟩, 0))
    ⟨0, 0⟩ (by decide) (by decide) (by rw [List.length_replicate]; decide)

end UvReadings
